import Mathlib

/-!
Verification of the snarkOS CLI logger setup (`src/cli/src/helpers/logger.rs`).

The development shallowly embeds `initialize_logger`:
* its verbosity-to-directive resolution (the `RUST_LOG` default level plus the
  `EnvFilter` directives added one by one);
* the bounded display channel of capacity 1024 with drop-on-full sends
  (the `LogWriter` write path, modelled from the specification since that
  file is not part of the sources here);
* the logfile provisioning (parent-directory creation, append-only open,
  `expect`-style fatal messages);
* the composition step (sink colour policy, `with_target`, and the discarded
  `try_init` registration result).
-/

/-- Log levels occurring in tracing directives; `off` disables a scope. -/
inductive Level where
  | off
  | info
  | debug
  | trace
deriving DecidableEq

/-- The default level set through the `RUST_LOG` environment variable at the
top of `initialize_logger`: `0 => info`, `1 => debug`, `2.. => trace`. -/
def rustLogFor (verbosity : Nat) : Level :=
  match verbosity with
  | 0 => Level.info
  | 1 => Level.debug
  | _ => Level.trace

/-- An `EnvFilter`: the default level taken from `RUST_LOG` plus an ordered
list of per-target directives; a later directive for the same target wins. -/
structure EnvFilter where
  defaultLevel : Level
  directives : List (String × Level)
deriving DecidableEq

/-- `EnvFilter::add_directive`: appends one `target=level` directive. -/
def addDirective (f : EnvFilter) (target : String) (level : Level) : EnvFilter :=
  { f with directives := f.directives ++ [(target, level)] }

/-- The filter built inside `initialize_logger`'s `std::array::from_fn`
closure, directive for directive in source order: the six noise-suppression
directives, then the gateway, narwhal, router and tcp directives whose level
depends on the verbosity thresholds. -/
def mkFilter (verbosity : Nat) : EnvFilter :=
  let filter : EnvFilter := { defaultLevel := rustLogFor verbosity, directives := [] }
  let filter := addDirective filter "mio" Level.off
  let filter := addDirective filter "tokio_util" Level.off
  let filter := addDirective filter "hyper" Level.off
  let filter := addDirective filter "reqwest" Level.off
  let filter := addDirective filter "want" Level.off
  let filter := addDirective filter "warp" Level.off
  let filter := if verbosity > 3 then
      addDirective filter "snarkos_node_narwhal::gateway" Level.trace
    else
      addDirective filter "snarkos_node_narwhal::gateway" Level.debug
  let filter := if verbosity > 4 then
      addDirective filter "snarkos_node_narwhal" Level.trace
    else
      addDirective filter "snarkos_node_narwhal" Level.debug
  let filter := if verbosity > 5 then
      addDirective filter "snarkos_node_router" Level.trace
    else
      addDirective filter "snarkos_node_router" Level.off
  if verbosity > 6 then
    addDirective filter "snarkos_node_tcp" Level.trace
  else
    addDirective filter "snarkos_node_tcp" Level.off

/-- `std::array::from_fn(|_| ...)` runs the closure once per slot, so the two
filters are two independent builds from the same verbosity. -/
def mkFilterPair (verbosity : Nat) : EnvFilter × EnvFilter :=
  (mkFilter verbosity, mkFilter verbosity)

/-- The effective level of a scope under a filter: the last directive whose
target is exactly that scope, or the default level when none exists. -/
def scopeLevel (f : EnvFilter) (scope : String) : Level :=
  match (f.directives.filter (fun d => d.1 == scope)).getLast? with
  | some d => d.2
  | none => f.defaultLevel

/-- The six scopes suppressed unconditionally at the start of the closure. -/
def noiseScopes : List String :=
  ["mio", "tokio_util", "hyper", "reqwest", "want", "warp"]

/-- A formatted log record: an opaque byte buffer (`Vec<u8>`). -/
abbrev LogRecord := List Nat

/-- Modelled from the spec: the bounded display channel created by
`mpsc::channel(1024)`. The queue holds the records sent but not yet drained;
its capacity is fixed at construction. The `tokio::sync::mpsc` implementation
itself is not part of the sources here. -/
structure Channel where
  capacity : Nat
  queue : List LogRecord

/-- A fresh bounded channel, as created by `mpsc::channel(1024)`. -/
def mkChannel (capacity : Nat) : Channel :=
  { capacity := capacity, queue := [] }

/-- Modelled from the spec: a non-blocking send on the bounded channel
(`Sender::try_send`, as used by `LogWriter`, whose file is not among the
sources here). When the queue is at capacity the record is silently dropped
and the channel is unchanged; the call always returns. -/
def trySend (c : Channel) (r : LogRecord) : Channel :=
  if c.queue.length < c.capacity then
    { c with queue := c.queue ++ [r] }
  else
    c

/-- Draining the consuming end of the channel yields the queued records,
oldest first. -/
def drain (c : Channel) : List LogRecord :=
  c.queue

/-- The observable output state of the two sinks: the display channel, the
bytes written directly to standard output, and the logfile contents. -/
structure PipelineState where
  channel : Channel
  stdoutOut : List LogRecord
  fileOut : List LogRecord

/-- The sender handed to `LogWriter`: `None` when `nodisplay` is set,
`Some` of the channel sender otherwise. -/
def logSenderOf (nodisplay : Bool) : Option Unit :=
  match nodisplay with
  | true => none
  | false => some ()

/-- Modelled from the spec: `LogWriter`'s write operation. With a sender it
attempts a non-blocking enqueue onto the channel; with no sender it writes
the bytes directly to standard output. -/
def logWriterWrite (sender : Option Unit) (st : PipelineState) (r : LogRecord) :
    PipelineState :=
  match sender with
  | some _ => { st with channel := trySend st.channel r }
  | none => { st with stdoutOut := st.stdoutOut ++ [r] }

/-- One record flowing through both sinks: the terminal sink's `LogWriter`
and the file sink's appending writer. -/
def emitRecord (sender : Option Unit) (st : PipelineState) (r : LogRecord) :
    PipelineState :=
  let st := logWriterWrite sender st r
  { st with fileOut := st.fileOut ++ [r] }

/-- Emitting a list of records through a freshly initialized pipeline. -/
def emitAll (nodisplay : Bool) (records : List LogRecord) : PipelineState :=
  records.foldl (emitRecord (logSenderOf nodisplay))
    { channel := mkChannel 1024, stdoutOut := [], fileOut := [] }

/-- A filesystem path given by its components; `[]` is the root. -/
abbrev FsPath := List String

/-- `Path::parent`: `None` for the root, otherwise the path without its last
component. -/
def parentOf (p : FsPath) : Option FsPath :=
  match p with
  | [] => none
  | _ => some p.dropLast

/-- A directory together with all of its ancestors (including the root). -/
def ancestorsIncl (d : FsPath) : List FsPath :=
  (List.range (d.length + 1)).map (fun n => d.take n)

/-- The filesystem as seen by `initialize_logger`: the set of existing
directories and the contents of existing files (one entry per appended
record). -/
structure FileSystem where
  dirs : List FsPath
  files : FsPath → Option (List LogRecord)

/-- `std::fs::create_dir_all`: creates the directory and every missing
ancestor; existing directories and all files are untouched. -/
def createDirAll (fs : FileSystem) (d : FsPath) : FileSystem :=
  { fs with dirs := fs.dirs ++ (ancestorsIncl d).filter (fun a => decide (a ∉ fs.dirs)) }

/-- `File::options().append(true).create(true).open(path)`: creates the file
empty when absent and keeps existing contents intact (no truncation). -/
def openAppend (fs : FileSystem) (p : FsPath) : FileSystem :=
  match fs.files p with
  | some _ => fs
  | none => { fs with files := fun q => if q = p then some [] else fs.files q }

/-- A write through the append-only handle: adds one record after the
existing contents. -/
def appendWrite (fs : FileSystem) (p : FsPath) (r : LogRecord) : FileSystem :=
  { fs with files := fun q => if q = p then some (((fs.files p).getD []) ++ [r]) else fs.files q }

/-- Outcomes of the two fallible filesystem calls: `some cause` makes the
call fail with that underlying cause, `none` makes it succeed. -/
structure IOOracle where
  createFails : Option String
  openFails : Option String

/-- `Result::expect(msg)` panics with the custom message followed by the
Debug rendering of the underlying error. -/
def expectMsg (msg cause : String) : String :=
  msg ++ ": " ++ cause

/-- The `expect` message on the `create_dir_all` call, exactly as it appears
in the source: a plain string literal, so the `{logfile_dir}` placeholder is
never interpolated. -/
def createDirExpectMsg : String :=
  "Failed to create a directories: '{logfile_dir}', please check if user has permissions"

/-- The `expect` message on the `File::open` call. -/
def openExpectMsg : String :=
  "Failed to open the file for writing logs"

/-- The logfile provisioning block of `initialize_logger`: take the parent of
the logfile (panicking on the root), create the directory tree when it does
not exist, then open the logfile in append-create mode. Errors are the panic
messages produced by the `expect` calls. -/
def provisionLogfile (io : IOOracle) (fs : FileSystem) (logfile : FsPath) :
    Except String FileSystem :=
  match parentOf logfile with
  | none => Except.error "Root directory passed as a logfile"
  | some dir =>
    let step : Except String FileSystem :=
      if dir ∈ fs.dirs then Except.ok fs
      else
        match io.createFails with
        | some cause => Except.error (expectMsg createDirExpectMsg cause)
        | none => Except.ok (createDirAll fs dir)
    match step with
    | Except.error e => Except.error e
    | Except.ok fs₁ =>
      match io.openFails with
      | some cause => Except.error (expectMsg openExpectMsg cause)
      | none => Except.ok (openAppend fs₁ logfile)

/-- The configuration of one `fmt::Layer`: its ANSI-colour switch, whether
targets are printed, and its filter. -/
structure SinkConfig where
  ansi : Bool
  withTarget : Bool
  filter : EnvFilter

/-- The subscriber composed of the terminal layer and the file layer. -/
structure Subscriber where
  terminal : SinkConfig
  file : SinkConfig

/-- The subscriber built by `initialize_logger`: the terminal layer enables
colour only when the log sender is absent and stdout is a tty, both layers
print targets for verbosity above 2, the file layer never uses colour, and
each layer gets its own independently built filter. -/
def mkSubscriber (verbosity : Nat) (nodisplay stdoutIsTty : Bool) : Subscriber :=
  let pair := mkFilterPair verbosity
  let sender := logSenderOf nodisplay
  { terminal :=
      { ansi := sender.isNone && stdoutIsTty
        withTarget := decide (verbosity > 2)
        filter := pair.1 }
    file :=
      { ansi := false
        withTarget := decide (verbosity > 2)
        filter := pair.2 } }

/-- Modelled from the spec: `try_init` on the global registry. When a
subscriber is already installed the call leaves it in place and reports an
error; otherwise it installs the given subscriber. It never panics. -/
def tryInit (installed : Option Subscriber) (s : Subscriber) :
    Option Subscriber × Except Unit Unit :=
  match installed with
  | some b => (some b, Except.error ())
  | none => (some s, Except.ok ())

/-- The composition tail of `initialize_logger`: build the channel and the
subscriber, attempt registration with the result discarded (`let _ = ...`),
and return the new global state together with the receiver of the freshly
created channel, in every case. -/
def initLogger (verbosity : Nat) (nodisplay stdoutIsTty : Bool)
    (installed : Option Subscriber) : Option Subscriber × Channel :=
  let channel := mkChannel 1024
  let sub := mkSubscriber verbosity nodisplay stdoutIsTty
  let reg := tryInit installed sub
  (reg.1, channel)

theorem mkFilter_defaultLevel (v : Nat) : (mkFilter v).defaultLevel = rustLogFor v := by
  by_cases h3 : v > 3 <;> by_cases h4 : v > 4 <;> by_cases h5 : v > 5 <;> by_cases h6 : v > 6 <;>
    simp [mkFilter, addDirective, h3, h4, h5, h6]

theorem mkFilter_directives (v : Nat) :
    (mkFilter v).directives =
      [("mio", Level.off), ("tokio_util", Level.off), ("hyper", Level.off),
       ("reqwest", Level.off), ("want", Level.off), ("warp", Level.off),
       ("snarkos_node_narwhal::gateway", if v > 3 then Level.trace else Level.debug),
       ("snarkos_node_narwhal", if v > 4 then Level.trace else Level.debug),
       ("snarkos_node_router", if v > 5 then Level.trace else Level.off),
       ("snarkos_node_tcp", if v > 6 then Level.trace else Level.off)] := by
  by_cases h3 : v > 3 <;> by_cases h4 : v > 4 <;> by_cases h5 : v > 5 <;> by_cases h6 : v > 6 <;>
    simp [mkFilter, addDirective, h3, h4, h5, h6]

/-- C1: for every verbosity `v`, the built filter's global level is info for
`v = 0`, debug for `v = 1` and trace for `v ≥ 2`; the gateway scope is at
debug unless `v > 3` (then trace); the narwhal scope is at debug unless
`v > 4` (then trace); the router scope is off unless `v > 5` (then trace);
and the tcp scope is off unless `v > 6` (then trace). -/
theorem C1_directive_table (v : Nat) :
    (mkFilter v).defaultLevel =
      (if v = 0 then Level.info else if v = 1 then Level.debug else Level.trace) ∧
    scopeLevel (mkFilter v) "snarkos_node_narwhal::gateway" =
      (if v > 3 then Level.trace else Level.debug) ∧
    scopeLevel (mkFilter v) "snarkos_node_narwhal" =
      (if v > 4 then Level.trace else Level.debug) ∧
    scopeLevel (mkFilter v) "snarkos_node_router" =
      (if v > 5 then Level.trace else Level.off) ∧
    scopeLevel (mkFilter v) "snarkos_node_tcp" =
      (if v > 6 then Level.trace else Level.off) := by
  refine ⟨?_, ?_, ?_, ?_, ?_⟩
  · rw [mkFilter_defaultLevel]
    match v with
    | 0 => rfl
    | 1 => rfl
    | n + 2 => simp [rustLogFor]
  all_goals simp [scopeLevel, mkFilter_directives]

/-- C2 counterexample: at verbosity 5 the claimed table does not hold — in
particular the router scope is not at trace (the source escalates the router
only for `verbosity > 5`, so at 5 it stays off). -/
theorem C2_resolve5_counterexample :
    ¬ ((mkFilter 5).defaultLevel = Level.trace ∧
       scopeLevel (mkFilter 5) "snarkos_node_narwhal::gateway" = Level.trace ∧
       scopeLevel (mkFilter 5) "snarkos_node_narwhal" = Level.trace ∧
       scopeLevel (mkFilter 5) "snarkos_node_router" = Level.trace ∧
       scopeLevel (mkFilter 5) "snarkos_node_tcp" = Level.off) := by
  decide

/-- C2 amended: resolving verbosity 5 yields global level trace, gateway at
trace, the narwhal scope at trace, the router at off, and tcp at off. -/
theorem C2_resolve5_amended :
    (mkFilter 5).defaultLevel = Level.trace ∧
    scopeLevel (mkFilter 5) "snarkos_node_narwhal::gateway" = Level.trace ∧
    scopeLevel (mkFilter 5) "snarkos_node_narwhal" = Level.trace ∧
    scopeLevel (mkFilter 5) "snarkos_node_router" = Level.off ∧
    scopeLevel (mkFilter 5) "snarkos_node_tcp" = Level.off := by
  decide

/-- C4: for every verbosity, each of the six noise scopes is forced to off in
both compiled filters. -/
theorem C4_noise_scopes_off (v : Nat) (scope : String) (h : scope ∈ noiseScopes) :
    scopeLevel (mkFilterPair v).1 scope = Level.off ∧
    scopeLevel (mkFilterPair v).2 scope = Level.off := by
  simp only [noiseScopes, List.mem_cons, List.not_mem_nil, or_false] at h
  rcases h with h | h | h | h | h | h <;> subst h <;>
    exact ⟨by simp [scopeLevel, mkFilterPair, mkFilter_directives],
           by simp [scopeLevel, mkFilterPair, mkFilter_directives]⟩

/-- C4 witness: at verbosity 0 the scope `mio` is in the noise list and is
off in both filters. -/
theorem C4_noise_scopes_off_witness :
    "mio" ∈ noiseScopes ∧
    (scopeLevel (mkFilterPair 0).1 "mio" = Level.off ∧
     scopeLevel (mkFilterPair 0).2 "mio" = Level.off) :=
  ⟨by decide, C4_noise_scopes_off 0 "mio" (by decide)⟩

theorem foldl_trySend_queue (records : List LogRecord) :
    ∀ c : Channel, (records.foldl trySend c).queue =
      c.queue ++ records.take (c.capacity - c.queue.length) := by
  induction records with
  | nil => intro c; simp
  | cons r rs ih =>
    intro c
    rw [List.foldl_cons, ih]
    by_cases h : c.queue.length < c.capacity
    · simp only [trySend, if_pos h]
      have hc : c.capacity - c.queue.length = (c.capacity - (c.queue.length + 1)) + 1 := by
        omega
      rw [hc, List.take_succ_cons]
      simp
    · simp only [trySend, if_neg h]
      have hc : c.capacity - c.queue.length = 0 := by omega
      rw [hc]
      simp

/-- C3: sending more than 1024 records into the undrained bounded channel
never fails (each send is a total, immediately returning operation) and a
subsequent drain yields exactly the first 1024 records, oldest first: the
excess is silently dropped. -/
theorem C3_channel_drop_newest (records : List LogRecord)
    (h : records.length > 1024) :
    drain (records.foldl trySend (mkChannel 1024)) = records.take 1024 ∧
    (drain (records.foldl trySend (mkChannel 1024))).length = 1024 := by
  have hq := foldl_trySend_queue records (mkChannel 1024)
  simp only [mkChannel, List.length_nil, Nat.sub_zero, List.nil_append] at hq
  constructor
  · simpa [drain, mkChannel] using hq
  · simp only [drain, mkChannel]
    rw [hq, List.length_take]
    omega

/-- C3 witness: 1025 concrete one-byte records overfill the channel and a
drain returns exactly the first 1024 of them. -/
theorem C3_channel_drop_newest_witness :
    ((List.range 1025).map (fun n => [n])).length > 1024 ∧
    (drain (((List.range 1025).map (fun n => [n])).foldl trySend (mkChannel 1024)) =
        ((List.range 1025).map (fun n => [n])).take 1024 ∧
      (drain (((List.range 1025).map (fun n => [n])).foldl trySend (mkChannel 1024))).length =
        1024) :=
  ⟨by simp, C3_channel_drop_newest _ (by simp)⟩

theorem foldl_emitRecord_none (records : List LogRecord) :
    ∀ st : PipelineState, records.foldl (emitRecord none) st =
      { channel := st.channel, stdoutOut := st.stdoutOut ++ records,
        fileOut := st.fileOut ++ records } := by
  induction records with
  | nil => intro st; simp
  | cons r rs ih =>
    intro st
    rw [List.foldl_cons, ih]
    simp [emitRecord, logWriterWrite]

/-- C9: with `suppress_display` set, the terminal writer is handed no sender,
so for any emitted record sequence the channel's consuming end never receives
a record, the records go to standard output instead, and the file sink
receives every record as normal. -/
theorem C9_suppressed_display_channel_empty (records : List LogRecord) :
    drain (emitAll true records).channel = [] ∧
    (emitAll true records).stdoutOut = records ∧
    (emitAll true records).fileOut = records := by
  simp [emitAll, logSenderOf, foldl_emitRecord_none, drain, mkChannel]

/-- C8: the terminal layer enables ANSI colour exactly when the log sender is
absent (display suppressed) and standard output is a tty; the file layer has
ANSI colour disabled under every configuration. -/
theorem C8_ansi_policy (v : Nat) (nodisplay stdoutIsTty : Bool) :
    ((mkSubscriber v nodisplay stdoutIsTty).terminal.ansi = true ↔
      logSenderOf nodisplay = none ∧ stdoutIsTty = true) ∧
    (mkSubscriber v nodisplay stdoutIsTty).file.ansi = false := by
  cases nodisplay <;> cases stdoutIsTty <;> simp [mkSubscriber, logSenderOf]

/-- C7: when a subscriber is already installed, the discarded `try_init`
result makes registration a silent no-op that keeps the first-installed
subscriber, and in every case (any prior state, any display setting) the
call returns the consuming end of the freshly created channel. -/
theorem C7_registration_no_op (v : Nat) (nodisplay stdoutIsTty : Bool)
    (installed : Option Subscriber) (b : Subscriber) :
    (initLogger v nodisplay stdoutIsTty (some b)).1 = some b ∧
    (initLogger v nodisplay stdoutIsTty installed).2 = mkChannel 1024 := by
  exact ⟨rfl, rfl⟩

/-- A filesystem holding only the root directory and no files. -/
def fsOnlyRoot : FileSystem :=
  { dirs := [[]], files := fun _ => none }

theorem openAppend_dirs (fs : FileSystem) (p : FsPath) :
    (openAppend fs p).dirs = fs.dirs := by
  unfold openAppend
  cases fs.files p <;> rfl

theorem openAppend_files_self (fs : FileSystem) (p : FsPath) :
    (openAppend fs p).files p = some ((fs.files p).getD []) := by
  unfold openAppend
  cases h : fs.files p <;> simp [h]

theorem createDirAll_mem_dirs (fs : FileSystem) (d a : FsPath)
    (ha : a ∈ ancestorsIncl d) : a ∈ (createDirAll fs d).dirs := by
  unfold createDirAll
  simp only [List.mem_append, List.mem_filter]
  by_cases h : a ∈ fs.dirs
  · exact Or.inl h
  · exact Or.inr ⟨ha, by simpa using h⟩

theorem provisionLogfile_ok (fs : FileSystem) (logfile dir : FsPath)
    (hpar : parentOf logfile = some dir) :
    provisionLogfile ⟨none, none⟩ fs logfile =
      Except.ok (openAppend (if dir ∈ fs.dirs then fs else createDirAll fs dir) logfile) := by
  simp only [provisionLogfile, hpar]
  by_cases hd : dir ∈ fs.dirs <;> simp [hd]

theorem self_mem_ancestorsIncl (d : FsPath) : d ∈ ancestorsIncl d := by
  unfold ancestorsIncl
  exact List.mem_map.mpr ⟨d.length, by simp, by simp⟩

theorem openAppend_eq_self (fs : FileSystem) (p : FsPath) (c : List LogRecord)
    (h : fs.files p = some c) : openAppend fs p = fs := by
  unfold openAppend
  rw [h]

/-- C6: for every logfile path with a parent directory, provisioning
succeeds; when the parent did not exist it is created together with all its
ancestors; the file is opened append-create, so its prior contents are kept
intact (empty when it was absent); writes land after the existing contents;
and a second provisioning on the resulting state is a no-op that leaves the
contents untouched. -/
theorem C6_file_provisioning (fs : FileSystem) (logfile dir : FsPath)
    (hpar : parentOf logfile = some dir) :
    ∃ fs₁, provisionLogfile ⟨none, none⟩ fs logfile = Except.ok fs₁ ∧
      (dir ∉ fs.dirs → ∀ a ∈ ancestorsIncl dir, a ∈ fs₁.dirs) ∧
      fs₁.files logfile = some ((fs.files logfile).getD []) ∧
      (∀ r, (appendWrite fs₁ logfile r).files logfile =
          some (((fs.files logfile).getD []) ++ [r])) ∧
      provisionLogfile ⟨none, none⟩ fs₁ logfile = Except.ok fs₁ := by
  have hfiles : (if dir ∈ fs.dirs then fs else createDirAll fs dir).files = fs.files := by
    by_cases hd : dir ∈ fs.dirs <;> simp [hd, createDirAll]
  have hfself :
      (openAppend (if dir ∈ fs.dirs then fs else createDirAll fs dir) logfile).files logfile =
        some ((fs.files logfile).getD []) := by
    rw [openAppend_files_self, hfiles]
  refine ⟨openAppend (if dir ∈ fs.dirs then fs else createDirAll fs dir) logfile,
    provisionLogfile_ok fs logfile dir hpar, ?_, hfself, ?_, ?_⟩
  · intro hnd a ha
    rw [openAppend_dirs, if_neg hnd]
    exact createDirAll_mem_dirs fs dir a ha
  · intro r
    simp [appendWrite, hfself]
  · have hdir1 :
        dir ∈ (openAppend (if dir ∈ fs.dirs then fs else createDirAll fs dir) logfile).dirs := by
      rw [openAppend_dirs]
      by_cases hd : dir ∈ fs.dirs
      · rwa [if_pos hd]
      · rw [if_neg hd]
        exact createDirAll_mem_dirs fs dir dir (self_mem_ancestorsIncl dir)
    rw [provisionLogfile_ok _ logfile dir hpar, if_pos hdir1,
      openAppend_eq_self _ logfile _ hfself]

/-- C6 witness: a concrete logfile under a missing directory on a filesystem
holding only the root. -/
theorem C6_file_provisioning_witness :
    parentOf ["logs", "node.log"] = some ["logs"] ∧
    (∃ fs₁, provisionLogfile ⟨none, none⟩ fsOnlyRoot ["logs", "node.log"] = Except.ok fs₁ ∧
      (["logs"] ∉ fsOnlyRoot.dirs → ∀ a ∈ ancestorsIncl ["logs"], a ∈ fs₁.dirs) ∧
      fs₁.files ["logs", "node.log"] = some ((fsOnlyRoot.files ["logs", "node.log"]).getD []) ∧
      (∀ r, (appendWrite fs₁ ["logs", "node.log"] r).files ["logs", "node.log"] =
          some (((fsOnlyRoot.files ["logs", "node.log"]).getD []) ++ [r])) ∧
      provisionLogfile ⟨none, none⟩ fs₁ ["logs", "node.log"] = Except.ok fs₁) :=
  ⟨by decide, C6_file_provisioning fsOnlyRoot ["logs", "node.log"] ["logs"] (by decide)⟩

theorem expectMsg_ne_rootMsg (m c : String) (hm : 34 < m.length) :
    expectMsg m c ≠ "Root directory passed as a logfile" := by
  intro h
  have hlen := congrArg String.length h
  rw [expectMsg, String.length_append, String.length_append] at hlen
  have h2 : (": ").length = 2 := rfl
  have h34 : ("Root directory passed as a logfile").length = 34 := rfl
  omega

/-- C10: a logfile path with no parent makes `initialize_logger` panic with
the message `Root directory passed as a logfile`, for any filesystem state
and any outcome of the filesystem calls; for every path that does have a
parent, that panic can never be the outcome. -/
theorem C10_root_logfile_panics (io : IOOracle) (fs : FileSystem) (logfile : FsPath) :
    (parentOf logfile = none →
      provisionLogfile io fs logfile =
        Except.error "Root directory passed as a logfile") ∧
    (parentOf logfile ≠ none →
      provisionLogfile io fs logfile ≠
        Except.error "Root directory passed as a logfile") := by
  constructor
  · intro h
    simp [provisionLogfile, h]
  · intro h
    match hp : parentOf logfile with
    | none => exact absurd hp h
    | some dir =>
      simp only [provisionLogfile, hp]
      by_cases hd : dir ∈ fs.dirs
      · rw [if_pos hd]
        cases ho : io.openFails with
        | some cause =>
          simp only [ho]
          intro heq
          exact expectMsg_ne_rootMsg openExpectMsg cause (by decide) (Except.error.inj heq)
        | none => simp [ho]
      · rw [if_neg hd]
        cases hc : io.createFails with
        | some cause =>
          simp only [hc]
          intro heq
          exact expectMsg_ne_rootMsg createDirExpectMsg cause (by decide) (Except.error.inj heq)
        | none =>
          simp only [hc]
          cases ho : io.openFails with
          | some cause =>
            simp only [ho]
            intro heq
            exact expectMsg_ne_rootMsg openExpectMsg cause (by decide) (Except.error.inj heq)
          | none => simp [ho]

/-- C10 witness: the root path panics with the exact message, and a concrete
two-component path never produces that panic. -/
theorem C10_root_logfile_panics_witness :
    (parentOf ([] : FsPath) = none ∧
      provisionLogfile ⟨none, none⟩ fsOnlyRoot [] =
        Except.error "Root directory passed as a logfile") ∧
    (parentOf ["logs", "node.log"] ≠ none ∧
      provisionLogfile ⟨none, none⟩ fsOnlyRoot ["logs", "node.log"] ≠
        Except.error "Root directory passed as a logfile") :=
  ⟨⟨rfl, (C10_root_logfile_panics ⟨none, none⟩ fsOnlyRoot []).1 rfl⟩,
   ⟨by decide,
    (C10_root_logfile_panics ⟨none, none⟩ fsOnlyRoot ["logs", "node.log"]).2 (by decide)⟩⟩

/-- The fatal (panic) message of a provisioning outcome, when there is one. -/
def fatalMsg (r : Except String FileSystem) : Option String :=
  match r with
  | Except.error e => some e
  | Except.ok _ => none

/-- Whether `needle` occurs as a contiguous segment of `hay`. -/
def containsSeg (needle hay : List Char) : Bool :=
  (List.range (hay.length + 1)).any (fun i => needle.isPrefixOf (hay.drop i))

/-- C5: when directory creation fails, initialization aborts with the
`expect` panic message; the message carries the underlying cause, but since
the `expect` argument is a plain string literal the placeholder between
braces is never interpolated, so the actual failing path (here its component
`forbidden`) appears nowhere in the message. -/
theorem C5_fatal_message_lacks_path :
    fatalMsg (provisionLogfile ⟨some "Permission denied (os error 13)", none⟩ fsOnlyRoot
        ["forbidden", "dir", "node.log"]) =
      some (expectMsg createDirExpectMsg "Permission denied (os error 13)") ∧
    containsSeg ("forbidden".toList)
      ((expectMsg createDirExpectMsg "Permission denied (os error 13)").toList) = false ∧
    containsSeg ("{logfile_dir}".toList)
      ((expectMsg createDirExpectMsg "Permission denied (os error 13)").toList) = true := by
  exact ⟨by decide, by decide, by decide⟩
